import Mathlib

/-!
Shallow embedding of `research/object_detection/core/keypoint_ops.py`
(together with `research/object_detection/utils/control_dependencies.py`).

Keypoints are tensors of shape [num_instances, num_keypoints, 2], the last
axis holding [y, x].  We embed such a tensor as a function
`Fin n → Fin k → Val × Val`, where `Val` models a float32 coordinate that is
either a numeric value (embedded as a rational) or the NaN sentinel the
library uses for pruned / invisible keypoints.

Comparison and arithmetic on `Val` follow IEEE-754 / numpy semantics as
executed by the TensorFlow CPU kernels:
  * any ordered comparison involving NaN is false;
  * arithmetic with a NaN operand yields NaN;
  * `tf.minimum` / `tf.maximum` yield NaN when an operand is NaN (the Eigen
    kernels return the first argument whenever the comparison with NaN
    fails, and in every use below the only operand that can be NaN is the
    first one, so the symmetric NaN-propagating model used here coincides
    with the kernel behaviour on all inputs that can occur).
Exact rational arithmetic stands in for float32 arithmetic; claims stated
"modulo floating error" become exact statements.
-/

/-- A float32 coordinate value: NaN, or a numeric value (as a rational). -/
inductive Val where
  | nan : Val
  | num : ℚ → Val
deriving DecidableEq, Repr

namespace Val

/-- `a <= b` on floats: false whenever an operand is NaN. -/
def le : Val → Val → Bool
  | num a, num b => a ≤ b
  | _, _ => false

/-- `a < b` on floats: false whenever an operand is NaN. -/
def lt : Val → Val → Bool
  | num a, num b => a < b
  | _, _ => false

/-- `tf.math.is_nan`. -/
def isNan : Val → Bool
  | nan => true
  | num _ => false

/-- Float multiplication: NaN-propagating. -/
def mul : Val → Val → Val
  | num a, num b => num (a * b)
  | _, _ => nan

/-- Float subtraction: NaN-propagating. -/
def sub : Val → Val → Val
  | num a, num b => num (a - b)
  | _, _ => nan

/-- `tf.minimum`: NaN-propagating (see the header comment). -/
def fmin : Val → Val → Val
  | num a, num b => num (min a b)
  | _, _ => nan

/-- `tf.maximum`: NaN-propagating (see the header comment). -/
def fmax : Val → Val → Val
  | num a, num b => num (max a b)
  | _, _ => nan

/-- Apply a rational function under `num`, propagating NaN. -/
def map (f : ℚ → ℚ) : Val → Val
  | nan => nan
  | num q => num (f q)

end Val

/-- A keypoint tensor of shape [n, k, 2]: instance i, keypoint j, pair (y, x). -/
abbrev Kpts (n k : ℕ) := Fin n → Fin k → Val × Val

/-- A window tensor [y_min, x_min, y_max, x_max].  Per the data model the
window entries are numeric. -/
structure Window where
  y_min : ℚ
  x_min : ℚ
  y_max : ℚ
  x_max : ℚ

/-- `scale(keypoints, y_scale, x_scale)`: elementwise
`keypoints * [[[y_scale, x_scale]]]`.  The scalar factors are numeric
(`tf.cast(..., tf.float32)` of scalar tensors). -/
def scale {n k : ℕ} (keypoints : Kpts n k) (y_scale x_scale : ℚ) : Kpts n k :=
  fun i j =>
    (Val.mul (keypoints i j).1 (Val.num y_scale),
     Val.mul (keypoints i j).2 (Val.num x_scale))

/-- `clip_to_window(keypoints, window)`:
`y = tf.maximum(tf.minimum(y, win_y_max), win_y_min)` and likewise for x. -/
def clip_to_window {n k : ℕ} (keypoints : Kpts n k) (window : Window) : Kpts n k :=
  fun i j =>
    (Val.fmax (Val.fmin (keypoints i j).1 (Val.num window.y_max)) (Val.num window.y_min),
     Val.fmax (Val.fmin (keypoints i j).2 (Val.num window.x_max)) (Val.num window.x_min))

/-- `prune_outside_window(keypoints, window)`: a keypoint is valid when
`y >= win_y_min ∧ y <= win_y_max ∧ x >= win_x_min ∧ x <= win_x_max`
(each comparison false on NaN); invalid keypoints are replaced with
`np.nan * ones`, i.e. NaN, in both coordinates. -/
def prune_outside_window {n k : ℕ} (keypoints : Kpts n k) (window : Window) : Kpts n k :=
  fun i j =>
    let y := (keypoints i j).1
    let x := (keypoints i j).2
    let valid := (Val.le (Val.num window.y_min) y && Val.le y (Val.num window.y_max)) &&
                 (Val.le (Val.num window.x_min) x && Val.le x (Val.num window.x_max))
    if valid then (y, x) else (Val.nan, Val.nan)

/-- `change_coordinate_frame(keypoints, window)`:
`scale(keypoints - [window[0], window[1]], 1.0 / win_height, 1.0 / win_width)`
with `win_height = window[2] - window[0]`, `win_width = window[3] - window[1]`.
(In float arithmetic a degenerate window yields inf/NaN; the claims about this
function hypothesise non-degenerate windows.) -/
def change_coordinate_frame {n k : ℕ} (keypoints : Kpts n k) (window : Window) : Kpts n k :=
  let win_height := window.y_max - window.y_min
  let win_width := window.x_max - window.x_min
  scale
    (fun i j =>
      (Val.sub (keypoints i j).1 (Val.num window.y_min),
       Val.sub (keypoints i j).2 (Val.num window.x_min)))
    (1 / win_height) (1 / win_width)

/-- Flatten a keypoint tensor to the list of all its coordinate entries,
for `tf.reduce_max(keypoints)`. -/
def coordList {n k : ℕ} (keypoints : Kpts n k) : List Val :=
  ((List.finRange n).map fun i =>
    (((List.finRange k).map fun j =>
      [(keypoints i j).1, (keypoints i j).2]).flatten)).flatten

/-- `tf.reduce_max` over all entries.  A NaN entry makes the result NaN.
(On an empty tensor TensorFlow returns the lowest float32; no claim below
exercises an empty tensor, and returning NaN keeps every numeric-range
hypothesis false there.) -/
def reduceMax : List Val → Val
  | [] => Val.nan
  | v :: vs => vs.foldl Val.fmax v

/-- The data `tf.Assert` would report: the message string and the offending
value attached to it. -/
structure AssertData where
  message : String
  value : Val
deriving DecidableEq, Repr

/-- `to_normalized_coordinates(keypoints, height, width, check_range)`.
`assertActive` models the process-wide `ASSERT_ACTIVE` switch of
`control_dependencies.assert_control_dependencies`: when it is false
(the default) the `tf.Assert` is never attached to the graph and the
function cannot fail.  When active, the assert fires exactly when
`tf.greater(max_val, 1.01)` is false. -/
def to_normalized_coordinates {n k : ℕ} (assertActive : Bool) (keypoints : Kpts n k)
    (height width : ℚ) (check_range : Bool) : Except AssertData (Kpts n k) :=
  if check_range then
    let max_val := reduceMax (coordList keypoints)
    if assertActive && !(Val.lt (Val.num 1.01) max_val) then
      Except.error ⟨"max value is lower than 1.01: ", max_val⟩
    else
      Except.ok (scale keypoints (1 / height) (1 / width))
  else
    Except.ok (scale keypoints (1 / height) (1 / width))

/-- `to_absolute_coordinates(keypoints, height, width, check_range)`.
The assert fires exactly when `tf.greater_equal(1.01, max_val)` is false,
subject to the same `ASSERT_ACTIVE` switch. -/
def to_absolute_coordinates {n k : ℕ} (assertActive : Bool) (keypoints : Kpts n k)
    (height width : ℚ) (check_range : Bool) : Except AssertData (Kpts n k) :=
  if check_range then
    let max_val := reduceMax (coordList keypoints)
    if assertActive && !(Val.le max_val (Val.num 1.01)) then
      Except.error ⟨"maximum keypoint coordinate value is larger than 1.01: ", max_val⟩
    else
      Except.ok (scale keypoints height width)
  else
    Except.ok (scale keypoints height width)

/-- `flip_horizontal(keypoints, flip_point, flip_permutation)`:
transpose to [k, n, 2], optionally gather along the keypoint axis (skipped
when the permutation is None or empty, per Python truthiness), set
`u = flip_point * 2.0 - u` on the x half, and transpose back. -/
def flip_horizontal {n k : ℕ} (keypoints : Kpts n k) (flip_point : ℚ)
    (flip_permutation : Option (Fin k → Fin k)) : Kpts n k :=
  let t : Fin k → Fin n → Val × Val := fun j i => keypoints i j
  let g : Fin k → Fin n → Val × Val :=
    match flip_permutation with
    | some p => fun j => t (p j)
    | none => t
  fun i j => ((g j i).1, Val.sub (Val.num (flip_point * 2)) (g j i).2)

/-- `flip_vertical(keypoints, flip_point, flip_permutation)`: as
`flip_horizontal` but reflecting the y half. -/
def flip_vertical {n k : ℕ} (keypoints : Kpts n k) (flip_point : ℚ)
    (flip_permutation : Option (Fin k → Fin k)) : Kpts n k :=
  let t : Fin k → Fin n → Val × Val := fun j i => keypoints i j
  let g : Fin k → Fin n → Val × Val :=
    match flip_permutation with
    | some p => fun j => t (p j)
    | none => t
  fun i j => (Val.sub (Val.num (flip_point * 2)) (g j i).1, (g j i).2)

/-- `rot90(keypoints, rotation_permutation)`: transpose to [k, n, 2],
optionally gather, reverse the last axis (`[:, :, ::-1]`, so the pair
becomes (x, y)), set `v = 1.0 - v` on the first half, and transpose back.
Net per-keypoint effect: (y, x) ↦ (1 - x, y). -/
def rot90 {n k : ℕ} (keypoints : Kpts n k)
    (rotation_permutation : Option (Fin k → Fin k)) : Kpts n k :=
  let t : Fin k → Fin n → Val × Val := fun j i => keypoints i j
  let g : Fin k → Fin n → Val × Val :=
    match rotation_permutation with
    | some p => fun j => t (p j)
    | none => t
  fun i j => (Val.sub (Val.num 1) (g j i).2, (g j i).1)

/-- `set_keypoint_visibilities(keypoints, initial_keypoint_visibilities)`:
start from the provided mask (cast to bool; the identity on a bool mask) or
an all-true mask, then `tf.where(reduce_any(is_nan(keypoints), axis=2),
zeros, mask)`. -/
def set_keypoint_visibilities {n k : ℕ} (keypoints : Kpts n k)
    (initial_keypoint_visibilities : Option (Fin n → Fin k → Bool)) :
    Fin n → Fin k → Bool :=
  let vis : Fin n → Fin k → Bool :=
    match initial_keypoint_visibilities with
    | some v => v
    | none => fun _ _ => true
  fun i j =>
    let keypoints_with_nan := Val.isNan (keypoints i j).1 || Val.isNan (keypoints i j).2
    if keypoints_with_nan then false else vis i j

/-- Spec-side predicate: the value is a number lying in the inclusive
interval [lo, hi]. -/
def liesIn (v : Val) (lo hi : ℚ) : Prop :=
  ∃ q : ℚ, v = Val.num q ∧ lo ≤ q ∧ q ≤ hi

instance (v : Val) (lo hi : ℚ) : Decidable (liesIn v lo hi) :=
  match v with
  | Val.nan => isFalse (by rintro ⟨q, hq, -, -⟩; exact Val.noConfusion hq)
  | Val.num q =>
      decidable_of_iff (lo ≤ q ∧ q ≤ hi)
        ⟨fun h => ⟨q, rfl, h.1, h.2⟩,
         fun ⟨q', hq, h1, h2⟩ => by cases hq; exact ⟨h1, h2⟩⟩

/-! ### Helper lemmas -/

theorem Val.le_pair_iff (v : Val) (lo hi : ℚ) :
    ((Val.le (Val.num lo) v && Val.le v (Val.num hi)) = true) ↔ liesIn v lo hi := by
  cases v with
  | nan => simp [Val.le, liesIn]
  | num q => simp [Val.le, liesIn]

theorem Val.sub_sub_cancel (c : ℚ) (v : Val) :
    Val.sub (Val.num c) (Val.sub (Val.num c) v) = v := by
  cases v with
  | nan => simp [Val.sub]
  | num q => simp [Val.sub]

theorem Val.isNan_eq_true_iff (v : Val) : Val.isNan v = true ↔ v = Val.nan := by
  cases v <;> simp [Val.isNan]

/-! ### Claim theorems -/

/-- C3: `prune_outside_window` preserves the shape of the keypoint tensor
(intrinsic to the `Kpts n k` typing); every keypoint whose y lies in
[y_min, y_max] and whose x lies in [x_min, x_max] (inclusive) is returned
unchanged, and every other keypoint is returned with both coordinates
replaced by NaN. -/
theorem prune_outside_window_spec {n k : ℕ} (K : Kpts n k) (W : Window) :
    ∀ (i : Fin n) (j : Fin k),
      prune_outside_window K W i j =
        if liesIn (K i j).1 W.y_min W.y_max ∧ liesIn (K i j).2 W.x_min W.x_max
        then K i j
        else (Val.nan, Val.nan) := by
  intro i j
  simp only [prune_outside_window]
  rcases hP : decide (liesIn (K i j).1 W.y_min W.y_max ∧
      liesIn (K i j).2 W.x_min W.x_max) with _ | _
  · have hP' := of_decide_eq_false hP
    rw [if_neg hP']
    rw [Decidable.not_and_iff_or_not] at hP'
    rcases hP' with hy | hx
    · rw [← Val.le_pair_iff] at hy
      simp only [Bool.not_eq_true] at hy
      simp [hy]
    · rw [← Val.le_pair_iff] at hx
      simp only [Bool.not_eq_true] at hx
      simp [hx]
  · have hP' := of_decide_eq_true hP
    rw [if_pos hP']
    obtain ⟨hy, hx⟩ := hP'
    rw [← Val.le_pair_iff] at hy hx
    simp [hy, hx]

/-- C9: `prune_outside_window` is idempotent: pruning a second time with the
same window changes nothing, because a keypoint already set to (NaN, NaN)
fails the inclusive bounds test and is replaced by (NaN, NaN) again. -/
theorem prune_outside_window_idempotent {n k : ℕ} (K : Kpts n k) (W : Window) :
    prune_outside_window (prune_outside_window K W) W = prune_outside_window K W := by
  funext i j
  simp only [prune_outside_window]
  rcases hv : ((Val.le (Val.num W.y_min) (K i j).1 && Val.le (K i j).1 (Val.num W.y_max)) &&
      (Val.le (Val.num W.x_min) (K i j).2 && Val.le (K i j).2 (Val.num W.x_max))) with _ | _
  · simp [hv, Val.le]
  · simp [hv]

/-- C10: `clip_to_window` preserves the NaN sentinel: any coordinate of K
that is NaN is still NaN after clipping, so clipping never moves a pruned
keypoint into the window. -/
theorem clip_to_window_preserves_nan {n k : ℕ} (K : Kpts n k) (W : Window)
    (i : Fin n) (j : Fin k) :
    ((K i j).1 = Val.nan → (clip_to_window K W i j).1 = Val.nan) ∧
    ((K i j).2 = Val.nan → (clip_to_window K W i j).2 = Val.nan) := by
  constructor <;> intro h <;> simp [clip_to_window, h, Val.fmin, Val.fmax]

/-- Witness for C10 at a concrete pruned keypoint. -/
theorem clip_to_window_preserves_nan_witness :
    (clip_to_window (fun _ _ => (Val.nan, Val.num (1/2)) : Kpts 1 1) ⟨0, 0, 1, 1⟩ 0 0).1 =
      Val.nan :=
  (clip_to_window_preserves_nan (fun _ _ => (Val.nan, Val.num (1/2)) : Kpts 1 1)
    ⟨0, 0, 1, 1⟩ 0 0).1 rfl

/-- C2, counterexample to the claim as stated: a keypoint whose y-coordinate
is the NaN sentinel keeps a NaN y-coordinate under `clip_to_window` (see
C10), so that output coordinate does not lie within the window bounds even
though the window is well-formed (y_min ≤ y_max, x_min ≤ x_max). -/
theorem clip_to_window_counterexample :
    ¬ liesIn ((clip_to_window (fun _ _ => (Val.nan, Val.num (1/2)) : Kpts 1 1)
        ⟨0, 0, 1, 1⟩ 0 0).1) 0 1 := by
  decide

/-- C2 (amended): for every well-formed window (y_min ≤ y_max and
x_min ≤ x_max), every coordinate of `clip_to_window(K, W)` that is numeric
(not the NaN sentinel) lies within W's bounds inclusive: each numeric output
y is in [y_min, y_max] and each numeric output x is in [x_min, x_max]. -/
theorem clip_to_window_in_bounds {n k : ℕ} (K : Kpts n k) (W : Window)
    (hy : W.y_min ≤ W.y_max) (hx : W.x_min ≤ W.x_max) (i : Fin n) (j : Fin k) :
    (∀ q : ℚ, (clip_to_window K W i j).1 = Val.num q → W.y_min ≤ q ∧ q ≤ W.y_max) ∧
    (∀ q : ℚ, (clip_to_window K W i j).2 = Val.num q → W.x_min ≤ q ∧ q ≤ W.x_max) := by
  constructor
  · intro q hq
    rcases h1 : (K i j).1 with _ | a
    · simp [clip_to_window, h1, Val.fmin, Val.fmax] at hq
    · simp [clip_to_window, h1, Val.fmin, Val.fmax] at hq
      subst hq
      exact ⟨le_max_right _ _, max_le (le_trans (min_le_right _ _) le_rfl) hy⟩
  · intro q hq
    rcases h2 : (K i j).2 with _ | a
    · simp [clip_to_window, h2, Val.fmin, Val.fmax] at hq
    · simp [clip_to_window, h2, Val.fmin, Val.fmax] at hq
      subst hq
      exact ⟨le_max_right _ _, max_le (le_trans (min_le_right _ _) le_rfl) hx⟩

/-- Witness for the amended C2 at a concrete input: the keypoint (2, -1)
clips to y = 1 inside the window [0, 0, 1, 1]. -/
theorem clip_to_window_in_bounds_witness :
    (0 : ℚ) ≤ 1 ∧ (1 : ℚ) ≤ 1 :=
  (clip_to_window_in_bounds (fun _ _ => (Val.num 2, Val.num (-1)) : Kpts 1 1)
    ⟨0, 0, 1, 1⟩ (by norm_num) (by norm_num) 0 0).1 1 (by decide)

/-- C6: `flip_horizontal` with no permutation is an involution for every
flip point p: applying it twice returns K.  A single application maps each
x-coordinate to 2*p - x and leaves every y-coordinate unchanged. -/
theorem flip_horizontal_involution {n k : ℕ} (K : Kpts n k) (p : ℚ) :
    flip_horizontal (flip_horizontal K p none) p none = K ∧
    (∀ (i : Fin n) (j : Fin k),
      flip_horizontal K p none i j = ((K i j).1, Val.sub (Val.num (2 * p)) (K i j).2)) := by
  constructor
  · funext i j
    show ((K i j).1, Val.sub (Val.num (p * 2)) (Val.sub (Val.num (p * 2)) (K i j).2)) = K i j
    rw [Val.sub_sub_cancel]
  · intro i j
    show ((K i j).1, Val.sub (Val.num (p * 2)) (K i j).2) = _
    rw [mul_comm p 2]

/-- C5: `rot90` with no permutation, applied four times to a keypoint tensor
whose coordinates all lie in [0, 1], returns K exactly (the claim allows
floating tolerance; over exact arithmetic the round trip is exact).  A
single application maps each keypoint (y, x) to (1 - x, y). -/
theorem rot90_fourth_power {n k : ℕ} (K : Kpts n k)
    (h : ∀ (i : Fin n) (j : Fin k), liesIn (K i j).1 0 1 ∧ liesIn (K i j).2 0 1) :
    rot90 (rot90 (rot90 (rot90 K none) none) none) none = K ∧
    (∀ (i : Fin n) (j : Fin k),
      rot90 K none i j = (Val.sub (Val.num 1) (K i j).2, (K i j).1)) := by
  constructor
  · funext i j
    obtain ⟨⟨qy, hy, -, -⟩, ⟨qx, hx, -, -⟩⟩ := h i j
    have hK : K i j = (Val.num qy, Val.num qx) := by
      rw [← hy, ← hx]
    show (Val.sub (Val.num 1) (Val.sub (Val.num 1) (K i j).1),
          Val.sub (Val.num 1) (Val.sub (Val.num 1) (K i j).2)) = K i j
    rw [hK]
    simp [Val.sub]
  · intro i j
    rfl

/-- Witness for C5 at a concrete input with coordinates in [0, 1]. -/
theorem rot90_fourth_power_witness :
    rot90 (rot90 (rot90 (rot90
        (fun _ _ => (Val.num (1/2), Val.num (1/4)) : Kpts 1 1) none) none) none) none =
      (fun _ _ => (Val.num (1/2), Val.num (1/4)) : Kpts 1 1) :=
  (rot90_fourth_power (fun _ _ => (Val.num (1/2), Val.num (1/4)) : Kpts 1 1)
    (fun _ _ => ⟨⟨1/2, rfl, by norm_num, by norm_num⟩,
                 ⟨1/4, rfl, by norm_num, by norm_num⟩⟩)).1

/-- C7: `set_keypoint_visibilities` returns a mask whose entry [i, j] is
false whenever keypoint (i, j) has NaN in either coordinate, and otherwise
equals the initial mask entry (the all-true default when the initial mask is
absent); no entry is ever changed from false to true. -/
theorem set_keypoint_visibilities_spec {n k : ℕ} (K : Kpts n k)
    (initial : Option (Fin n → Fin k → Bool)) (i : Fin n) (j : Fin k) :
    (((K i j).1 = Val.nan ∨ (K i j).2 = Val.nan) →
      set_keypoint_visibilities K initial i j = false) ∧
    (((K i j).1 ≠ Val.nan ∧ (K i j).2 ≠ Val.nan) →
      set_keypoint_visibilities K initial i j = (initial.getD (fun _ _ => true)) i j) ∧
    (set_keypoint_visibilities K initial i j = true →
      (initial.getD (fun _ _ => true)) i j = true) := by
  rcases h1 : (K i j).1 with _ | qy <;> rcases h2 : (K i j).2 with _ | qx <;>
    cases initial <;>
      simp [set_keypoint_visibilities, h1, h2, Val.isNan, Option.getD]

/-- Witness for C7 matching the spec example: keypoint (NaN, NaN) with
initial visibility true becomes invisible. -/
theorem set_keypoint_visibilities_witness :
    set_keypoint_visibilities (fun _ _ => (Val.nan, Val.nan) : Kpts 1 1)
      (some fun _ _ => true) 0 0 = false :=
  (set_keypoint_visibilities_spec (fun _ _ => (Val.nan, Val.nan) : Kpts 1 1)
    (some fun _ _ => true) 0 0).1 (Or.inl rfl)

/-- C4: for a window with nonzero height and width,
`change_coordinate_frame` maps each keypoint (y, x) to
((y - y_min) / (y_max - y_min), (x - x_min) / (x_max - x_min)),
i.e. `scale` applied to the translated keypoints (NaN coordinates stay
NaN). -/
theorem change_coordinate_frame_spec {n k : ℕ} (K : Kpts n k) (W : Window)
    (hh : W.y_max - W.y_min ≠ 0) (hw : W.x_max - W.x_min ≠ 0) :
    ∀ (i : Fin n) (j : Fin k),
      change_coordinate_frame K W i j =
        (Val.map (fun q => (q - W.y_min) / (W.y_max - W.y_min)) (K i j).1,
         Val.map (fun q => (q - W.x_min) / (W.x_max - W.x_min)) (K i j).2) := by
  intro i j
  rcases h1 : (K i j).1 with _ | qy <;> rcases h2 : (K i j).2 with _ | qx <;>
    simp [change_coordinate_frame, scale, h1, h2, Val.sub, Val.mul, Val.map, mul_one_div,
      div_eq_mul_inv]

/-- Witness for C4 at a concrete input and the window [0, 0, 2, 4]. -/
theorem change_coordinate_frame_witness :
    change_coordinate_frame (fun _ _ => (Val.num 1, Val.num 3) : Kpts 1 1) ⟨0, 0, 2, 4⟩ 0 0 =
      (Val.map (fun q => (q - 0) / (2 - 0)) (Val.num 1),
       Val.map (fun q => (q - 0) / (4 - 0)) (Val.num 3)) :=
  change_coordinate_frame_spec (fun _ _ => (Val.num 1, Val.num 3) : Kpts 1 1) ⟨0, 0, 2, 4⟩
    (by norm_num) (by norm_num) 0 0

/-- C8: for positive height and width, converting to normalized coordinates
and back to absolute coordinates (both with check_range disabled) returns
the original keypoints exactly over exact arithmetic. -/
theorem to_absolute_of_to_normalized {n k : ℕ} (assertActive : Bool) (K : Kpts n k)
    (h w : ℚ) (hh : 0 < h) (hw : 0 < w) :
    (to_normalized_coordinates assertActive K h w false).bind
      (fun K2 => to_absolute_coordinates assertActive K2 h w false) = Except.ok K := by
  have hh' : h ≠ 0 := ne_of_gt hh
  have hw' : w ≠ 0 := ne_of_gt hw
  have hcancel : ∀ (v : Val) (c : ℚ), c ≠ 0 →
      Val.mul (Val.mul v (Val.num (1 / c))) (Val.num c) = v := by
    intro v c hc
    cases v with
    | nan => simp [Val.mul]
    | num q =>
        simp only [Val.mul, Val.num.injEq]
        field_simp
  have hscale : scale (scale K (1 / h) (1 / w)) h w = K := by
    funext i j
    show (Val.mul (Val.mul (K i j).1 (Val.num (1 / h))) (Val.num h),
          Val.mul (Val.mul (K i j).2 (Val.num (1 / w))) (Val.num w)) = K i j
    rw [hcancel _ _ hh', hcancel _ _ hw']
  show Except.ok (scale (scale K (1 / h) (1 / w)) h w) = Except.ok K
  rw [hscale]

/-- Witness for C8 at a concrete input with height = width = 10. -/
theorem to_absolute_of_to_normalized_witness :
    (to_normalized_coordinates false (fun _ _ => (Val.num 7, Val.num 3) : Kpts 1 1)
        10 10 false).bind
      (fun K2 => to_absolute_coordinates false K2 10 10 false) =
      Except.ok (fun _ _ => (Val.num 7, Val.num 3) : Kpts 1 1) :=
  to_absolute_of_to_normalized false (fun _ _ => (Val.num 7, Val.num 3) : Kpts 1 1)
    10 10 (by norm_num) (by norm_num)

/-- C1, counterexample to the claim as stated: with the `ASSERT_ACTIVE`
switch off (the default; `assert_control_dependencies` is then a no-op
context), `to_normalized_coordinates` with check_range=True on an
already-normalized tensor (maximum coordinate 1 ≤ 1.01) does NOT fail: it
returns the scaled keypoints. -/
theorem to_normalized_coordinates_counterexample :
    to_normalized_coordinates false (fun _ _ => (Val.num 1, Val.num 0) : Kpts 1 1)
        10 10 true =
      Except.ok (fun _ _ => (Val.num (1/10), Val.num 0)) := by
  have hs : scale (fun _ _ => (Val.num 1, Val.num 0) : Kpts 1 1) (1/10) (1/10) =
      (fun _ _ => (Val.num (1/10), Val.num 0)) := by
    funext i j
    show (Val.mul (Val.num 1) (Val.num (1/10)), Val.mul (Val.num 0) (Val.num (1/10))) =
      (Val.num (1/10), Val.num 0)
    simp [Val.mul]
  show Except.ok (scale (fun _ _ => (Val.num 1, Val.num 0) : Kpts 1 1) (1/10) (1/10)) =
    Except.ok (fun _ _ => (Val.num (1/10), Val.num 0) : Kpts 1 1)
  rw [hs]

/-- C1 (amended): when the process-wide `ASSERT_ACTIVE` switch is enabled,
`to_normalized_coordinates` with check_range=True on a keypoint tensor whose
maximum coordinate value is at most 1.01 fails with the range-precondition
assertion, whose reported data includes the offending maximum value; with
the switch disabled (the default) the assert is a no-op and the scaled
keypoints are returned (see the counterexample). -/
theorem to_normalized_coordinates_range_error {n k : ℕ} (K : Kpts n k) (h w : ℚ)
    (hmax : Val.le (reduceMax (coordList K)) (Val.num 1.01) = true) :
    to_normalized_coordinates true K h w true =
      Except.error ⟨"max value is lower than 1.01: ", reduceMax (coordList K)⟩ := by
  have hlt : Val.lt (Val.num 1.01) (reduceMax (coordList K)) = false := by
    rcases hm : reduceMax (coordList K) with _ | q
    · simp [Val.lt]
    · rw [hm] at hmax
      simp only [Val.le, decide_eq_true_eq] at hmax
      simp [Val.lt, not_lt.mpr hmax]
  simp [to_normalized_coordinates, hlt]

/-- Witness for the amended C1 at a concrete already-normalized input. -/
theorem to_normalized_coordinates_range_error_witness :
    to_normalized_coordinates true (fun _ _ => (Val.num 1, Val.num 0) : Kpts 1 1)
        10 10 true =
      Except.error ⟨"max value is lower than 1.01: ",
        reduceMax (coordList (fun _ _ => (Val.num 1, Val.num 0) : Kpts 1 1))⟩ :=
  to_normalized_coordinates_range_error (fun _ _ => (Val.num 1, Val.num 0) : Kpts 1 1)
    10 10 (by
      have hm : reduceMax (coordList (fun _ _ => (Val.num 1, Val.num 0) : Kpts 1 1)) =
          Val.num 1 := by decide
      rw [hm]
      simp only [Val.le, decide_eq_true_eq]
      norm_num)
